import Mathlib

/-!
Verification of the Costco UK stock/price tracker core.

This file gives a shallow embedding, in Lean, of the tracker's scraper
(`app/scraper.py`) and scheduler (`app/scheduler.py`) logic, together with
theorems settling the behavioural claims about stock classification, price
extraction, backoff, the due-check, change detection and the
auto-add-to-basket path.

Modelling conventions:
- Python floats are modelled as `ℚ`; machine timestamps as `ℚ` seconds.
- Python `None`-able values are `Option`; Python truthiness of floats and
  strings is made explicit (`pyTruthyQ`, `pyTruthyStr`).
- Regular-expression search is abstracted by an oracle: a function from a
  pattern string and the HTML body to a match result (`Bool` for plain
  matching, `Option String` for a group-1 capture).  All theorems about the
  extraction routines are proved for every oracle, i.e. for every HTML body.
-/

namespace CostcoTracker

/-- Enumerated stock state of a product, from `app/models.py` `StockStatus`. -/
inductive StockStatus where
  | in_stock
  | out_of_stock
  | warehouse_only
  | unknown
  | removed
deriving DecidableEq, Repr

/-- Alert kinds, from `app/models.py` `AlertType`. -/
inductive AlertType where
  | back_in_stock
  | price_drop
  | target_price
  | lowest_ever
  | stock_flapping
  | added_to_basket
deriving DecidableEq, Repr

/-- Old/new payload carried by an alert: the Python code passes either a
formatted price, a stock-status string, a quantity string, or `None`. -/
inductive AlertValue where
  | nullV
  | priceV (q : ℚ)
  | statusV (s : StockStatus)
  | qtyV (n : ℕ)
deriving DecidableEq, Repr

/-- One alert intent, as appended to `alerts_to_send` in the scheduler. -/
structure AlertIntent where
  kind : AlertType
  oldValue : AlertValue
  newValue : AlertValue
deriving DecidableEq, Repr

/-- Python truthiness of an optional float: `None` and `0.0` are falsy. -/
def pyTruthyQ : Option ℚ → Bool
  | none => false
  | some q => decide (q ≠ 0)

/-- Python truthiness of an optional string: `None` and `""` are falsy. -/
def pyTruthyStr : Option String → Bool
  | none => false
  | some s => decide (s ≠ "")

/-- Out-of-stock regex patterns, `CostcoScraper.STOCK_PATTERNS["out_of_stock"]`. -/
def OUT_OF_STOCK_PATTERNS : List String :=
  ["class=\"[^\"]*outOfStock[^\"]*\"",
   ">Out of Stock<",
   "disabled=\"disabled\"[^>]*>Out of Stock",
   "btn-primary disabled outOfStock"]

/-- In-stock regex patterns, `CostcoScraper.STOCK_PATTERNS["in_stock"]`. -/
def IN_STOCK_PATTERNS : List String :=
  ["id=\"add-to-cart-button\"",
   ">Add to cart<",
   "data-cy=\"addtocart-button",
   "class=\"[^\"]*add-to-cart__btn[^\"]*\"[^>]*>Add to cart"]

/-- Warehouse-only regex patterns, `CostcoScraper.STOCK_PATTERNS["warehouse_only"]`. -/
def WAREHOUSE_ONLY_PATTERNS : List String :=
  ["warehouse only",
   "in-warehouse",
   "Available in Warehouse"]

/-- Price regex patterns, `CostcoScraper.PRICE_PATTERNS` (each with one capture group). -/
def PRICE_PATTERNS : List String :=
  ["<span[^>]*class=\"[^\"]*notranslate[^\"]*\"[^>]*>£([\\d,]+\\.?\\d*)</span>",
   "\"price\":\\s*\"?([\\d.]+)\"?",
   "£([\\d,]+\\.?\\d*)",
   "data-product-price=\"([\\d.]+)\""]

/-- Checks whether any pattern of the list matches the body, under the
regex-search oracle `m` (one `re.search` per pattern, as in the Python loops). -/
def matchesAny (m : String → String → Bool) (html : String) (pats : List String) : Bool :=
  pats.any (fun p => m p html)

/-- Embeds `CostcoScraper._parse_stock_status`: out-of-stock patterns are tried
first, then warehouse-only, then in-stock, else `unknown`. -/
def parse_stock_status (m : String → String → Bool) (html : String) : StockStatus :=
  if matchesAny m html OUT_OF_STOCK_PATTERNS then StockStatus.out_of_stock
  else if matchesAny m html WAREHOUSE_ONLY_PATTERNS then StockStatus.warehouse_only
  else if matchesAny m html IN_STOCK_PATTERNS then StockStatus.in_stock
  else StockStatus.unknown

/-- Models Python's `s.replace(",", "")` used on a captured price string. -/
def stripCommas (s : String) : String := ⟨s.toList.filter (fun c => c ≠ ',')⟩

/-- Value of a digit list read in base 10 (helper for `parseFloat`). -/
def digitsVal (cs : List Char) : ℕ :=
  cs.foldl (fun a c => 10 * a + (c.toNat - 48)) 0

/-- Models Python `float(s)` on the comma-stripped capture of a price pattern:
such captures consist of digits and dots, and `float` accepts them exactly
when they contain at least one digit and at most one dot; the result is the
usual decimal value.  Any other input is a `ValueError`, i.e. `none`. -/
def parseFloat (s : String) : Option ℚ :=
  let cs := s.toList
  if cs.all (fun c => c.isDigit || c = '.') && cs.any (fun c => c.isDigit)
      && decide (cs.count '.' ≤ 1) then
    let ip := cs.takeWhile (fun c => c ≠ '.')
    let fp := (cs.dropWhile (fun c => c ≠ '.')).drop 1
    some ((digitsVal ip : ℚ) + (digitsVal fp : ℚ) / (10 : ℚ) ^ fp.length)
  else
    none

/-- Loop body of `CostcoScraper._parse_price`: patterns are tried in order;
a pattern whose capture fails to parse, or parses outside `(0, 100000)`,
falls through to the next pattern.  The oracle `g` returns the group-1
capture of `re.search(pattern, html)` when the pattern matches. -/
def parse_price_from (g : String → String → Option String) (html : String) :
    List String → Option ℚ
  | [] => none
  | pat :: rest =>
    match g pat html with
    | none => parse_price_from g html rest
    | some grp =>
      match parseFloat (stripCommas grp) with
      | none => parse_price_from g html rest
      | some price =>
        if 0 < price ∧ price < 100000 then some price
        else parse_price_from g html rest

/-- Embeds `CostcoScraper._parse_price`. -/
def parse_price (g : String → String → Option String) (html : String) : Option ℚ :=
  parse_price_from g html PRICE_PATTERNS

/-- Outcome of one price pattern, written after the claim: the pattern's
capture must parse (after stripping thousands separators) to a value strictly
between 0 and 100000, else the pattern contributes nothing. -/
def price_rule (g : String → String → Option String) (html : String)
    (pat : String) : Option ℚ :=
  (g pat html).bind fun grp =>
    (parseFloat (stripCommas grp)).bind fun v =>
      if 0 < v ∧ v < 100000 then some v else none

/-- The claim's wording of price extraction: the value of the first pattern
in the ordered list that matches and parses in range. -/
def price_spec (g : String → String → Option String) (html : String) : Option ℚ :=
  (PRICE_PATTERNS.filterMap (price_rule g html)).head?

/-- Fixed blocking-indicator phrases from `CostcoScraper._detect_blocking`. -/
def BLOCKING_INDICATORS : List String :=
  ["captcha", "robot", "blocked", "access denied", "please verify",
   "security check"]

/-- Checks whether `p` occurs at the start of `h` (helper for substring search). -/
def listStartsWith : List Char → List Char → Bool
  | [], _ => true
  | _ :: _, [] => false
  | p :: ps, h :: hs => p = h && listStartsWith ps hs

/-- Models Python's `needle in haystack` on strings: contiguous substring. -/
def listContains (pat : List Char) : List Char → Bool
  | [] => pat.isEmpty
  | h :: hs => listStartsWith pat (h :: hs) || listContains pat hs

/-- Models Python `str.lower()` (ASCII-adequate for the fixed indicators). -/
def toLowerStr (s : String) : String := ⟨s.toList.map Char.toLower⟩

/-- Embeds `CostcoScraper._detect_blocking`: status 403/429/5xx are blocking;
otherwise a body shorter than 10000 characters containing one of the fixed
indicator phrases (case-insensitively) is flagged as possible blocking. -/
def detect_blocking (html : String) (status : ℕ) : Option String :=
  if status = 403 then some "Access forbidden (403)"
  else if status = 429 then some "Rate limited (429)"
  else if 500 ≤ status then some ("Server error (" ++ toString status ++ ")")
  else
    match BLOCKING_INDICATORS.find? (fun ind =>
        listContains ind.toList (toLowerStr html).toList
          && decide (html.length < 10000)) with
    | some ind => some ("Possible blocking detected: " ++ ind)
    | none => none

/-- Backoff duration in seconds as computed by `CostcoScraper._trigger_backoff`. -/
def backoff_seconds (mult : ℚ) (n : ℕ) : ℚ :=
  min (60 * mult ^ n) 3600

/-- Rate-limiter state of the scraper (`_consecutive_errors`, `_backoff_until`). -/
structure ScraperState where
  consecutive_errors : ℕ
  backoff_until : Option ℚ
deriving DecidableEq, Repr

/-- Embeds `CostcoScraper._trigger_backoff`: sets backoff-until to now plus
the capped exponential duration for the current consecutive-error count. -/
def trigger_backoff (st : ScraperState) (mult now : ℚ) : ScraperState :=
  { st with backoff_until := some (now + backoff_seconds mult st.consecutive_errors) }

/-- Scraped product data, from `app/scraper.py` `ProductData`. -/
structure ProductData where
  item_number : String
  name : Option String := none
  price : Option ℚ := none
  stock_status : StockStatus := StockStatus.unknown
  image_url : Option String := none
  is_warehouse_only : Bool := false
  checkout_discount : Option ℚ := none
  checkout_discount_text : Option String := none
  error : Option String := none
deriving DecidableEq, Repr

/-- Embeds the response-handling tail of `CostcoScraper.fetch_product`
(after the HTTP response arrives): blocking detection first (incrementing
the error count and triggering backoff), then the 404 branch, then the
non-200 branch, then full extraction with the error count reset.  The regex
oracles `mStock`/`gPrice` drive stock and price parsing; the name, image and
checkout-discount extractions are passed in as their already-parsed results
(`nameR`, `imageR`, `discR`, `discTextR`), since no claim depends on their
internals. -/
def fetch_product_response (st : ScraperState) (now mult : ℚ) (item : String)
    (status : ℕ) (html : String)
    (mStock : String → String → Bool) (gPrice : String → String → Option String)
    (nameR imageR : Option String) (discR : Option ℚ) (discTextR : Option String) :
    ScraperState × ProductData :=
  match detect_blocking html status with
  | some e =>
    let st1 : ScraperState :=
      { st with consecutive_errors := st.consecutive_errors + 1 }
    (trigger_backoff st1 mult now, { item_number := item, error := some e })
  | none =>
    if status = 404 then
      (st, { item_number := item, stock_status := StockStatus.removed,
             error := some "Product not found (404)" })
    else if status ≠ 200 then
      ({ st with consecutive_errors := st.consecutive_errors + 1 },
       { item_number := item, error := some ("HTTP " ++ toString status) })
    else
      ({ st with consecutive_errors := 0 },
       { item_number := item,
         name := nameR,
         price := parse_price gPrice html,
         stock_status := parse_stock_status mStock html,
         image_url := imageR,
         is_warehouse_only :=
           decide (parse_stock_status mStock html = StockStatus.warehouse_only),
         checkout_discount := discR,
         checkout_discount_text := discTextR })

/-- Persisted product state, from `app/models.py` `Product` (the fields the
scheduler reads or writes; timestamps in seconds). -/
structure Product where
  name : Option String := none
  image_url : Option String := none
  current_price : Option ℚ := none
  previous_price : Option ℚ := none
  lowest_price : Option ℚ := none
  highest_price : Option ℚ := none
  stock_status : StockStatus := StockStatus.unknown
  checkout_discount : Option ℚ := none
  checkout_discount_text : Option String := none
  poll_interval_minutes : Option ℕ := none
  target_price : Option ℚ := none
  auto_add_to_basket : Bool := false
  auto_add_quantity : ℕ := 1
  auto_add_max_price : Option ℚ := none
  notify_back_in_stock : Bool := true
  notify_price_drop : Bool := true
  notify_target_price : Bool := true
  notify_lowest_ever : Bool := true
  last_checked_at : Option ℚ := none
  last_in_stock_at : Option ℚ := none
  last_price_change_at : Option ℚ := none
  consecutive_errors : ℕ := 0
  last_error : Option String := none
  last_error_at : Option ℚ := none
deriving DecidableEq, Repr

/-- Embeds `ProductScheduler._handle_auto_basket`: the max-price gate skips
the attempt only when the configured max price and the snapshot price are
both truthy and the snapshot price exceeds the max; otherwise the basket
call proceeds, and only a successful call emits an ADDED_TO_BASKET alert.
`basketSuccess` stands for the reported success of the external
`add_to_basket` call.  Returns (attempted, emitted alerts). -/
def handle_auto_basket (p : Product) (data : ProductData) (basketSuccess : Bool) :
    Bool × List AlertIntent :=
  if pyTruthyQ p.auto_add_max_price = true ∧ pyTruthyQ data.price = true
      ∧ p.auto_add_max_price.getD 0 < data.price.getD 0 then
    (false, [])
  else if basketSuccess then
    (true, [⟨AlertType.added_to_basket, AlertValue.nullV,
             AlertValue.qtyV p.auto_add_quantity⟩])
  else
    (true, [])

/-- Embeds the "update basic info" block of `_process_product_update`:
adopt the snapshot name only when the stored one is falsy, adopt a truthy
snapshot image unconditionally. -/
def merge_basic_info (p : Product) (data : ProductData) : Product :=
  let p2 : Product :=
    if pyTruthyStr data.name = true ∧ pyTruthyStr p.name = false then
      { p with name := data.name }
    else p
  if pyTruthyStr data.image_url = true then
    { p2 with image_url := data.image_url }
  else p2

/-- Result of the stock-transition step of `_process_product_update`. -/
structure StockPhaseResult where
  product : Product
  basketAlerts : List AlertIntent
  queuedAlerts : List AlertIntent
  basketAttempted : Bool
  changed : Bool
deriving DecidableEq, Repr

/-- Embeds the stock-status block of `ProductScheduler._process_product_update`
(lines recording the transition, stamping last-in-stock, queueing the
BACK_IN_STOCK alert and invoking auto-add-to-basket).  Alerts produced by the
basket helper are sent immediately (`basketAlerts`); the BACK_IN_STOCK alert
is queued and sent only after the whole update (`queuedAlerts`). -/
def stock_phase (p : Product) (data : ProductData) (now : ℚ)
    (basketSuccess : Bool) : StockPhaseResult :=
  if p.stock_status = data.stock_status then
    { product := p, basketAlerts := [], queuedAlerts := [],
      basketAttempted := false, changed := false }
  else
    let p1 : Product := { p with stock_status := data.stock_status }
    if p.stock_status = StockStatus.out_of_stock
        ∧ data.stock_status = StockStatus.in_stock then
      let p2 : Product := { p1 with last_in_stock_at := some now }
      let queued : List AlertIntent :=
        if p2.notify_back_in_stock = true then
          [⟨AlertType.back_in_stock, AlertValue.statusV p.stock_status,
            AlertValue.statusV data.stock_status⟩]
        else []
      if p2.auto_add_to_basket = true then
        let ba := handle_auto_basket p2 data basketSuccess
        { product := p2, basketAlerts := ba.2, queuedAlerts := queued,
          basketAttempted := ba.1, changed := true }
      else
        { product := p2, basketAlerts := [], queuedAlerts := queued,
          basketAttempted := false, changed := true }
    else
      { product := p1, basketAlerts := [], queuedAlerts := [],
        basketAttempted := false, changed := true }

/-- Result of the price step of `_process_product_update`. -/
structure PricePhaseResult where
  product : Product
  alerts : List AlertIntent
  changed : Bool
deriving DecidableEq, Repr

/-- Embeds the price blocks of `ProductScheduler._process_product_update`:
a price change happens when the snapshot carries a price and either no
current price is stored or they differ by more than 0.01; it shifts
previous/current price, then updates lowest/highest and queues, in order,
LOWEST_EVER, PRICE_DROP and TARGET_PRICE alerts per their conditions. -/
def price_phase (p : Product) (data : ProductData) (now : ℚ) : PricePhaseResult :=
  match data.price with
  | none => { product := p, alerts := [], changed := false }
  | some newPrice =>
    let oldPrice := p.current_price
    if oldPrice = none ∨ 1 / 100 < |oldPrice.getD 0 - newPrice| then
      let p1 : Product :=
        { p with previous_price := oldPrice, current_price := some newPrice, last_price_change_at := some now }
      let oldLowest := p1.lowest_price
      let p2 : Product :=
        if oldLowest = none ∨ newPrice < oldLowest.getD 0 then
          { p1 with lowest_price := some newPrice }
        else p1
      let lowestAlerts : List AlertIntent :=
        if (oldLowest = none ∨ newPrice < oldLowest.getD 0)
            ∧ oldLowest ≠ none ∧ p1.notify_lowest_ever = true then
          [⟨AlertType.lowest_ever, AlertValue.priceV (oldLowest.getD 0),
            AlertValue.priceV newPrice⟩]
        else []
      let p3 : Product :=
        if p2.highest_price = none ∨ p2.highest_price.getD 0 < newPrice then
          { p2 with highest_price := some newPrice }
        else p2
      let dropAlerts : List AlertIntent :=
        if pyTruthyQ oldPrice = true ∧ newPrice < oldPrice.getD 0
            ∧ p3.notify_price_drop = true then
          [⟨AlertType.price_drop, AlertValue.priceV (oldPrice.getD 0),
            AlertValue.priceV newPrice⟩]
        else []
      let targetAlerts : List AlertIntent :=
        if pyTruthyQ p3.target_price = true ∧ newPrice ≤ p3.target_price.getD 0
            ∧ p3.notify_target_price = true then
          [⟨AlertType.target_price, AlertValue.nullV, AlertValue.priceV newPrice⟩]
        else []
      { product := p3, alerts := lowestAlerts ++ dropAlerts ++ targetAlerts,
        changed := true }
    else
      { product := p, alerts := [], changed := false }

/-- Outcome of processing one snapshot: the updated product, every alert that
was emitted (in emission order: basket alerts first, since the basket helper
sends immediately while the others are queued), the significant-change flag,
and whether a basket attempt was made. -/
structure ProcessResult where
  product : Product
  emitted : List AlertIntent
  changed : Bool
  basketAttempted : Bool
deriving DecidableEq, Repr

/-- Embeds `ProductScheduler._process_product_update`: stamps last-checked;
an error snapshot only bumps the error counter and sets last-error, emitting
nothing; otherwise the error state is cleared, name/image merged, the stock
block and the price blocks run (with the checkout-discount fields always
overwritten), and the queued alerts are sent after the basket helper's. -/
def process_product_update (p : Product) (data : ProductData) (now : ℚ)
    (basketSuccess : Bool) : ProcessResult :=
  let p0 : Product := { p with last_checked_at := some now }
  match data.error with
  | some e =>
    { product :=
        { p0 with consecutive_errors := p0.consecutive_errors + 1, last_error := some e, last_error_at := some now },
      emitted := [], changed := false, basketAttempted := false }
  | none =>
    let p1 : Product := { p0 with consecutive_errors := 0, last_error := none }
    let p3 := merge_basic_info p1 data
    let st := stock_phase p3 data now basketSuccess
    let pD : Product :=
        { st.product with checkout_discount := data.checkout_discount, checkout_discount_text := data.checkout_discount_text }
    let pr := price_phase pD data now
    { product := pr.product,
      emitted := st.basketAlerts ++ (st.queuedAlerts ++ pr.alerts),
      changed := st.changed || pr.changed,
      basketAttempted := st.basketAttempted }

/-- Embeds the `or`-fallback `product.poll_interval_minutes or
settings.default_poll_interval_minutes` (a zero override is falsy in Python). -/
def effective_base_interval (override : Option ℕ) (defaultInterval : ℕ) : ℕ :=
  match override with
  | some k => if k ≠ 0 then k else defaultInterval
  | none => defaultInterval

/-- Embeds `ProductScheduler._should_poll`: a product is due when never
checked, or when the elapsed minutes since the last check reach the
product's interval (override or default) scaled by the jitter drawn for
this check.  `now` is in seconds, matching `total_seconds() / 60`. -/
def should_poll (p : Product) (defaultInterval : ℕ) (now jitter : ℚ) : Bool :=
  match p.last_checked_at with
  | none => true
  | some t =>
    let interval := effective_base_interval p.poll_interval_minutes defaultInterval
    let effectiveInterval : ℚ := (interval : ℚ) * jitter
    let elapsed : ℚ := (now - t) / 60
    decide (effectiveInterval ≤ elapsed)

/-- Models the due-check exactly as claim C3 words it: elapsed minutes must
reach `clamp(override ?? default, min, max)` scaled by the jitter. -/
def due_per_claim (p : Product) (defaultInterval minInterval maxInterval : ℕ)
    (now jitter : ℚ) : Prop :=
  p.last_checked_at = none ∨
  ∃ t, p.last_checked_at = some t ∧
    ((max minInterval (min maxInterval
        (p.poll_interval_minutes.getD defaultInterval)) : ℕ) : ℚ) * jitter
      ≤ (now - t) / 60

/-- Product used in the C3 counterexample: an override of 5 minutes, well
below the global minimum interval of 15, last checked 10 minutes ago. -/
def productC3 : Product :=
  { last_checked_at := some 0, poll_interval_minutes := some 5 }

/-- Product for the C4 scenario: stored price 100, lowest 100, highest 120,
target price 90, all price notifications enabled (the defaults), in stock. -/
def productC4 : Product :=
  { current_price := some 100, lowest_price := some 100,
    highest_price := some 120, target_price := some 90,
    stock_status := StockStatus.in_stock }

/-- Snapshot for the C4 scenario: error-free, price 85, stock unchanged. -/
def dataC4 : ProductData :=
  { item_number := "1", price := some 85, stock_status := StockStatus.in_stock }

/-- Product for the C6 scenario: out of stock, auto-add-to-basket enabled,
back-in-stock notifications enabled (default), no max-price gate. -/
def productC6 : Product :=
  { stock_status := StockStatus.out_of_stock, auto_add_to_basket := true }

/-- Snapshot for the C6 scenario: error-free, back in stock, no price. -/
def dataC6 : ProductData :=
  { item_number := "1", stock_status := StockStatus.in_stock }

/-- Claim C1: stock classification follows the fixed precedence
out-of-stock > warehouse-only > in-stock > unknown, for every HTML body
(every match oracle); in particular a body matched by both an out-of-stock
pattern and an in-stock pattern classifies as out-of-stock. -/
theorem stock_status_precedence (m : String → String → Bool) (html : String) :
    ((∃ p ∈ OUT_OF_STOCK_PATTERNS, m p html = true) →
        parse_stock_status m html = StockStatus.out_of_stock)
    ∧ ((∀ p ∈ OUT_OF_STOCK_PATTERNS, m p html = false) →
        (∃ p ∈ WAREHOUSE_ONLY_PATTERNS, m p html = true) →
        parse_stock_status m html = StockStatus.warehouse_only)
    ∧ ((∀ p ∈ OUT_OF_STOCK_PATTERNS, m p html = false) →
        (∀ p ∈ WAREHOUSE_ONLY_PATTERNS, m p html = false) →
        (∃ p ∈ IN_STOCK_PATTERNS, m p html = true) →
        parse_stock_status m html = StockStatus.in_stock)
    ∧ ((∀ p ∈ OUT_OF_STOCK_PATTERNS, m p html = false) →
        (∀ p ∈ WAREHOUSE_ONLY_PATTERNS, m p html = false) →
        (∀ p ∈ IN_STOCK_PATTERNS, m p html = false) →
        parse_stock_status m html = StockStatus.unknown)
    ∧ ((∃ p ∈ OUT_OF_STOCK_PATTERNS, m p html = true) →
        (∃ p ∈ IN_STOCK_PATTERNS, m p html = true) →
        parse_stock_status m html = StockStatus.out_of_stock) := by
  unfold parse_stock_status matchesAny
  refine ⟨?_, ?_, ?_, ?_, ?_⟩
  · rintro ⟨p, hp, hm⟩
    rw [if_pos (List.any_eq_true.mpr ⟨p, hp, hm⟩)]
  · intro hno ⟨p, hp, hm⟩
    rw [if_neg, if_pos (List.any_eq_true.mpr ⟨p, hp, hm⟩)]
    simp only [List.any_eq_true, not_exists, not_and]
    intro q hq
    simp [hno q hq]
  · intro hno hnw ⟨p, hp, hm⟩
    rw [if_neg, if_neg, if_pos (List.any_eq_true.mpr ⟨p, hp, hm⟩)]
    · simp only [List.any_eq_true, not_exists, not_and]
      intro q hq
      simp [hnw q hq]
    · simp only [List.any_eq_true, not_exists, not_and]
      intro q hq
      simp [hno q hq]
  · intro hno hnw hni
    rw [if_neg, if_neg, if_neg]
    · simp only [List.any_eq_true, not_exists, not_and]
      intro q hq
      simp [hni q hq]
    · simp only [List.any_eq_true, not_exists, not_and]
      intro q hq
      simp [hnw q hq]
    · simp only [List.any_eq_true, not_exists, not_and]
      intro q hq
      simp [hno q hq]
  · rintro ⟨p, hp, hm⟩ _
    rw [if_pos (List.any_eq_true.mpr ⟨p, hp, hm⟩)]

/-- Witness for C1: a body matched by both an out-of-stock pattern and an
in-stock pattern classifies as out-of-stock. -/
theorem stock_status_precedence_witness :
    parse_stock_status
      (fun p _ => decide (p = ">Out of Stock<" ∨ p = ">Add to cart<")) "body"
      = StockStatus.out_of_stock :=
  (stock_status_precedence _ "body").2.2.2.2
    ⟨">Out of Stock<", by decide, by decide⟩
    ⟨">Add to cart<", by decide, by decide⟩

theorem parse_price_from_eq_spec (g : String → String → Option String)
    (html : String) (pats : List String) :
    parse_price_from g html pats = (pats.filterMap (price_rule g html)).head? := by
  induction pats with
  | nil => rfl
  | cons pat rest ih =>
    rw [List.filterMap_cons]
    cases hg : g pat html with
    | none =>
      have hrule : price_rule g html pat = none := by
        unfold price_rule
        rw [hg]
        rfl
      rw [hrule]
      simp only [parse_price_from, hg]
      exact ih
    | some grp =>
      cases hf : parseFloat (stripCommas grp) with
      | none =>
        have hrule : price_rule g html pat = none := by
          unfold price_rule
          rw [hg]
          show (parseFloat (stripCommas grp)).bind _ = none
          rw [hf]
          rfl
        rw [hrule]
        simp only [parse_price_from, hg, hf]
        exact ih
      | some v =>
        by_cases hv : 0 < v ∧ v < 100000
        · have hrule : price_rule g html pat = some v := by
            unfold price_rule
            rw [hg]
            show (parseFloat (stripCommas grp)).bind _ = some v
            rw [hf]
            show (if 0 < v ∧ v < 100000 then some v else none) = some v
            rw [if_pos hv]
          rw [hrule]
          simp only [parse_price_from, hg, hf, if_pos hv]
          rfl
        · have hrule : price_rule g html pat = none := by
            unfold price_rule
            rw [hg]
            show (parseFloat (stripCommas grp)).bind _ = none
            rw [hf]
            show (if 0 < v ∧ v < 100000 then some v else none) = none
            rw [if_neg hv]
          rw [hrule]
          simp only [parse_price_from, hg, hf, if_neg hv]
          exact ih

/-- Claim C7: the extracted price is the value of the first pattern in the
ordered list whose capture parses (commas stripped) to a float strictly
between 0 and 100000; when every pattern's capture parses only out of range
(or fails to parse, or no pattern matches), no price is extracted. -/
theorem parse_price_first_in_range (g : String → String → Option String)
    (html : String) :
    parse_price g html = price_spec g html
    ∧ ((∀ pat ∈ PRICE_PATTERNS, ∀ grp, g pat html = some grp →
          ∀ v, parseFloat (stripCommas grp) = some v → ¬(0 < v ∧ v < 100000)) →
        parse_price g html = none) := by
  constructor
  · exact parse_price_from_eq_spec g html PRICE_PATTERNS
  · intro hall
    rw [parse_price, parse_price_from_eq_spec]
    have : PRICE_PATTERNS.filterMap (price_rule g html) = [] := by
      refine List.filterMap_eq_nil_iff.mpr ?_
      intro pat hpat
      unfold price_rule
      cases hg : g pat html with
      | none => rfl
      | some grp =>
        show (parseFloat (stripCommas grp)).bind _ = none
        cases hf : parseFloat (stripCommas grp) with
        | none => rfl
        | some v =>
          show (if 0 < v ∧ v < 100000 then some v else none) = none
          rw [if_neg (hall pat hpat grp hg v hf)]
    rw [this]
    rfl

/-- Witness for C7: an oracle whose every capture is the out-of-range string
"0" (Python `float("0")` is `0.0`, not strictly positive) yields no price. -/
theorem parse_price_first_in_range_witness :
    parse_price (fun _ _ => some "0") "body" = none := by
  refine (parse_price_first_in_range (fun _ _ => some "0") "body").2 ?_
  intro pat _ grp hg v hv
  have hgrp : grp = "0" := by
    injection hg with h
    exact h.symm
  subst hgrp
  have hs : stripCommas "0" = "0" := by decide
  rw [hs] at hv
  have h0 : parseFloat "0" = some 0 := by
    simp +decide [parseFloat, digitsVal]
  rw [h0] at hv
  injection hv with h
  rw [← h]
  norm_num

/-- Claim C2: on a blocking response the consecutive-error count is first
incremented and backoff-until becomes now plus `min(60·mult^n, 3600)` at the
incremented count `n`; the backoff duration is monotonically non-decreasing
in the count (for a multiplier ≥ 1) and never exceeds 3600 seconds; HTTP 403
always classifies as blocking. -/
theorem backoff_law (st : ScraperState) (now mult : ℚ) (item : String)
    (status : ℕ) (html : String)
    (mStock : String → String → Bool) (gPrice : String → String → Option String)
    (nameR imageR : Option String) (discR : Option ℚ) (discTextR : Option String)
    (hmult : 1 ≤ mult) :
    (detect_blocking html status ≠ none →
      (fetch_product_response st now mult item status html mStock gPrice
          nameR imageR discR discTextR).1.consecutive_errors
        = st.consecutive_errors + 1
      ∧ (fetch_product_response st now mult item status html mStock gPrice
          nameR imageR discR discTextR).1.backoff_until
        = some (now + min (60 * mult ^ (st.consecutive_errors + 1)) 3600))
    ∧ (∀ m n : ℕ, m ≤ n → backoff_seconds mult m ≤ backoff_seconds mult n)
    ∧ (∀ n : ℕ, backoff_seconds mult n ≤ 3600)
    ∧ detect_blocking html 403 = some "Access forbidden (403)" := by
  refine ⟨?_, ?_, ?_, ?_⟩
  · intro hb
    cases hdb : detect_blocking html status with
    | none => exact absurd hdb hb
    | some e =>
      unfold fetch_product_response
      rw [hdb]
      exact ⟨rfl, rfl⟩
  · intro m n hmn
    unfold backoff_seconds
    have hpow : mult ^ m ≤ mult ^ n := pow_le_pow_right₀ hmult hmn
    exact min_le_min (by nlinarith) le_rfl
  · intro n
    exact min_le_right _ _
  · unfold detect_blocking
    rw [if_pos rfl]

/-- Witness for C2: a 403 response with two prior consecutive errors and
multiplier 2 sets the error count to 3 and backoff-until to now plus
`min(60·2³, 3600)` = 480 seconds. -/
theorem backoff_law_witness :
    (fetch_product_response ⟨2, none⟩ 0 2 "item" 403 "" (fun _ _ => false)
        (fun _ _ => none) none none none none).1.consecutive_errors = 2 + 1
    ∧ (fetch_product_response ⟨2, none⟩ 0 2 "item" 403 "" (fun _ _ => false)
        (fun _ _ => none) none none none none).1.backoff_until
      = some (0 + min (60 * 2 ^ (2 + 1)) 3600) :=
  (backoff_law ⟨2, none⟩ 0 2 "item" 403 "" (fun _ _ => false) (fun _ _ => none)
      none none none none (by norm_num)).1
    (by unfold detect_blocking; rw [if_pos rfl]; exact Option.some_ne_none _)

/-- Counterexample to C5: a 404 response whose (short) body contains the
blocking indicator "captcha" is classified as possible blocking, not as
"removed with a not-found error" — the body's content does matter. -/
theorem removed_on_404_counterexample :
    (fetch_product_response ⟨0, none⟩ 0 2 "item" 404 "captcha"
        (fun _ _ => false) (fun _ _ => none) none none none none).2.stock_status
      = StockStatus.unknown
    ∧ (fetch_product_response ⟨0, none⟩ 0 2 "item" 404 "captcha"
        (fun _ _ => false) (fun _ _ => none) none none none none).2.error
      = some "Possible blocking detected: captcha" := by
  have hdb : detect_blocking "captcha" 404
      = some "Possible blocking detected: captcha" := by decide
  constructor
  · unfold fetch_product_response
    rw [hdb]
  · unfold fetch_product_response
    rw [hdb]

/-- Claim C5 (amended): a 404 response whose body does not itself trigger the
blocking detector yields exactly the "removed" snapshot with the explanatory
not-found error, and leaves the scraper's rate-limiter state untouched. -/
theorem removed_on_404 (st : ScraperState) (now mult : ℚ) (item : String)
    (html : String)
    (mStock : String → String → Bool) (gPrice : String → String → Option String)
    (nameR imageR : Option String) (discR : Option ℚ) (discTextR : Option String)
    (hb : detect_blocking html 404 = none) :
    (fetch_product_response st now mult item 404 html mStock gPrice
        nameR imageR discR discTextR).2
      = { item_number := item, stock_status := StockStatus.removed,
          error := some "Product not found (404)" }
    ∧ (fetch_product_response st now mult item 404 html mStock gPrice
        nameR imageR discR discTextR).1 = st := by
  constructor
  · unfold fetch_product_response
    rw [hb]
    rfl
  · unfold fetch_product_response
    rw [hb]
    rfl

/-- Witness for C5 (amended): a 404 with an empty body maps to "removed". -/
theorem removed_on_404_witness :
    (fetch_product_response ⟨0, none⟩ 0 2 "item" 404 "" (fun _ _ => false)
        (fun _ _ => none) none none none none).2
      = { item_number := "item", stock_status := StockStatus.removed,
          error := some "Product not found (404)" }
    ∧ (fetch_product_response ⟨0, none⟩ 0 2 "item" 404 "" (fun _ _ => false)
        (fun _ _ => none) none none none none).1 = (⟨0, none⟩ : ScraperState) :=
  removed_on_404 ⟨0, none⟩ 0 2 "item" "" (fun _ _ => false) (fun _ _ => none)
    none none none none (by decide)

/-- Counterexample to C3: with the stock settings (default 45, min 15,
max 180) and jitter 1, a product overridden to 5 minutes and last checked
10 minutes (600 s) ago is due per the code, but not due per the claim's
clamped formula — the code never clamps the override into
[min_poll_interval, max_poll_interval]. -/
theorem due_check_clamp_counterexample :
    should_poll productC3 45 600 1 = true
    ∧ ¬ due_per_claim productC3 45 15 180 600 1 := by
  constructor
  · unfold should_poll productC3 effective_base_interval
    norm_num
  · unfold due_per_claim productC3
    push_neg
    refine ⟨by simp, ?_⟩
    intro t ht
    simp only [Option.some_inj] at ht
    subst ht
    norm_num

/-- Claim C3 (amended): the due-check holds iff the product was never
checked, or the elapsed minutes since its last check reach the unclamped
interval (per-product override if set and nonzero, else the global default)
scaled by the jitter; consequently, for every jitter in [0.8, 1.2], a
product last checked 0.79 of its interval ago is never due. -/
theorem should_poll_characterization (p : Product) (defaultInterval : ℕ)
    (now jitter : ℚ) (hd : 0 < defaultInterval)
    (hj1 : 4 / 5 ≤ jitter) (hj2 : jitter ≤ 6 / 5) :
    (should_poll p defaultInterval now jitter = true ↔
      (p.last_checked_at = none ∨
        ∃ t, p.last_checked_at = some t ∧
          ((effective_base_interval p.poll_interval_minutes defaultInterval : ℕ) : ℚ)
              * jitter ≤ (now - t) / 60))
    ∧ (∀ t, p.last_checked_at = some t →
        (now - t) / 60
          = 79 / 100 *
            ((effective_base_interval p.poll_interval_minutes defaultInterval : ℕ) : ℚ) →
        should_poll p defaultInterval now jitter = false) := by
  have hpos : 0 <
      ((effective_base_interval p.poll_interval_minutes defaultInterval : ℕ) : ℚ) := by
    unfold effective_base_interval
    cases hov : p.poll_interval_minutes with
    | none =>
      exact_mod_cast hd
    | some k =>
      show (0 : ℚ) < ((if k ≠ 0 then k else defaultInterval : ℕ) : ℚ)
      by_cases hk : k ≠ 0
      · rw [if_pos hk]
        exact_mod_cast Nat.pos_of_ne_zero hk
      · rw [if_neg hk]
        exact_mod_cast hd
  constructor
  · cases hlc : p.last_checked_at with
    | none =>
      unfold should_poll
      rw [hlc]
      simp
    | some t =>
      unfold should_poll
      rw [hlc]
      constructor
      · intro h
        refine Or.inr ⟨t, rfl, ?_⟩
        exact_mod_cast of_decide_eq_true h
      · rintro (h | ⟨t', ht', h⟩)
        · exact absurd h (by simp)
        · simp only [Option.some_inj] at ht'
          subst ht'
          exact decide_eq_true h
  · intro t ht helapsed
    unfold should_poll
    rw [ht]
    apply decide_eq_false
    rw [helapsed]
    intro hle
    nlinarith

/-- Witness for C3 (amended): a product on the default 45-minute interval
last checked 0.79 · 45 minutes = 2133 seconds ago is not due at jitter 1. -/
theorem should_poll_characterization_witness :
    should_poll { last_checked_at := some 0 } 45 2133 1 = false :=
  (should_poll_characterization { last_checked_at := some 0 } 45 2133 1
      (by norm_num) (by norm_num) (by norm_num)).2 0 rfl
    (by unfold effective_base_interval; norm_num)

theorem merge_keeps_current (p : Product) (data : ProductData) :
    (merge_basic_info p data).current_price = p.current_price := by
  unfold merge_basic_info
  split <;> split <;> rfl

theorem merge_keeps_previous (p : Product) (data : ProductData) :
    (merge_basic_info p data).previous_price = p.previous_price := by
  unfold merge_basic_info
  split <;> split <;> rfl

theorem merge_keeps_lowest (p : Product) (data : ProductData) :
    (merge_basic_info p data).lowest_price = p.lowest_price := by
  unfold merge_basic_info
  split <;> split <;> rfl

theorem merge_keeps_highest (p : Product) (data : ProductData) :
    (merge_basic_info p data).highest_price = p.highest_price := by
  unfold merge_basic_info
  split <;> split <;> rfl

theorem merge_keeps_errors (p : Product) (data : ProductData) :
    (merge_basic_info p data).consecutive_errors = p.consecutive_errors
    ∧ (merge_basic_info p data).last_error = p.last_error := by
  unfold merge_basic_info
  split <;> split <;> exact ⟨rfl, rfl⟩

theorem merge_keeps_stock_policy (p : Product) (data : ProductData) :
    (merge_basic_info p data).stock_status = p.stock_status
    ∧ (merge_basic_info p data).notify_back_in_stock = p.notify_back_in_stock
    ∧ (merge_basic_info p data).auto_add_to_basket = p.auto_add_to_basket
    ∧ (merge_basic_info p data).auto_add_quantity = p.auto_add_quantity
    ∧ (merge_basic_info p data).auto_add_max_price = p.auto_add_max_price := by
  unfold merge_basic_info
  split <;> split <;> exact ⟨rfl, rfl, rfl, rfl, rfl⟩

theorem stock_phase_keeps_prices (p : Product) (data : ProductData) (now : ℚ)
    (bs : Bool) :
    (stock_phase p data now bs).product.current_price = p.current_price
    ∧ (stock_phase p data now bs).product.previous_price = p.previous_price
    ∧ (stock_phase p data now bs).product.lowest_price = p.lowest_price
    ∧ (stock_phase p data now bs).product.highest_price = p.highest_price := by
  unfold stock_phase
  split
  · exact ⟨rfl, rfl, rfl, rfl⟩
  · dsimp only
    split
    · split
      · exact ⟨rfl, rfl, rfl, rfl⟩
      · exact ⟨rfl, rfl, rfl, rfl⟩
    · exact ⟨rfl, rfl, rfl, rfl⟩

theorem stock_phase_keeps_errors (p : Product) (data : ProductData) (now : ℚ)
    (bs : Bool) :
    (stock_phase p data now bs).product.consecutive_errors = p.consecutive_errors
    ∧ (stock_phase p data now bs).product.last_error = p.last_error := by
  unfold stock_phase
  split
  · exact ⟨rfl, rfl⟩
  · dsimp only
    split
    · split
      · exact ⟨rfl, rfl⟩
      · exact ⟨rfl, rfl⟩
    · exact ⟨rfl, rfl⟩

theorem price_phase_keeps_errors (p : Product) (data : ProductData) (now : ℚ) :
    (price_phase p data now).product.consecutive_errors = p.consecutive_errors
    ∧ (price_phase p data now).product.last_error = p.last_error := by
  unfold price_phase
  cases data.price with
  | none => exact ⟨rfl, rfl⟩
  | some q =>
    dsimp only
    split
    · dsimp only
      repeat' split
      all_goals exact ⟨rfl, rfl⟩
    · exact ⟨rfl, rfl⟩

/-- Claim C8: an error snapshot bumps the consecutive-error counter by
exactly one, records the error text and time, and emits no alerts; an
error-free snapshot resets the counter to 0 (and clears the last error). -/
theorem error_snapshot_handling (p : Product) (data : ProductData) (now : ℚ)
    (bs : Bool) :
    (∀ e, data.error = some e →
      (process_product_update p data now bs).product.consecutive_errors
          = p.consecutive_errors + 1
      ∧ (process_product_update p data now bs).product.last_error = some e
      ∧ (process_product_update p data now bs).product.last_error_at = some now
      ∧ (process_product_update p data now bs).emitted = [])
    ∧ (data.error = none →
      (process_product_update p data now bs).product.consecutive_errors = 0
      ∧ (process_product_update p data now bs).product.last_error = none) := by
  constructor
  · intro e he
    unfold process_product_update
    rw [he]
    exact ⟨rfl, rfl, rfl, rfl⟩
  · intro he
    unfold process_product_update
    rw [he]
    dsimp only
    rw [(price_phase_keeps_errors _ data now).1, (price_phase_keeps_errors _ data now).2]
    constructor
    · show (stock_phase _ data now bs).product.consecutive_errors = 0
      rw [(stock_phase_keeps_errors _ data now bs).1, (merge_keeps_errors _ data).1]
    · show (stock_phase _ data now bs).product.last_error = none
      rw [(stock_phase_keeps_errors _ data now bs).2, (merge_keeps_errors _ data).2]

/-- Witness for C8: a concrete error snapshot bumps the counter from 3 to 4
with no alerts, and a concrete error-free snapshot resets it to 0. -/
theorem error_snapshot_handling_witness :
    ((process_product_update { consecutive_errors := 3 }
        { item_number := "1", error := some "Request timeout" } 5 false).product.consecutive_errors
      = 3 + 1
    ∧ (process_product_update { consecutive_errors := 3 }
        { item_number := "1", error := some "Request timeout" } 5 false).product.last_error
      = some "Request timeout"
    ∧ (process_product_update { consecutive_errors := 3 }
        { item_number := "1", error := some "Request timeout" } 5 false).product.last_error_at
      = some 5
    ∧ (process_product_update { consecutive_errors := 3 }
        { item_number := "1", error := some "Request timeout" } 5 false).emitted = [])
    ∧ ((process_product_update { consecutive_errors := 3 }
        { item_number := "1" } 5 false).product.consecutive_errors = 0
    ∧ (process_product_update { consecutive_errors := 3 }
        { item_number := "1" } 5 false).product.last_error = none) :=
  ⟨(error_snapshot_handling { consecutive_errors := 3 }
      { item_number := "1", error := some "Request timeout" } 5 false).1
      "Request timeout" rfl,
   (error_snapshot_handling { consecutive_errors := 3 }
      { item_number := "1" } 5 false).2 rfl⟩

/-- Claim C10: the auto-add max-price gate reads only the snapshot's price —
the persisted current price never influences the helper — and when a max
price is configured (truthy) but the snapshot price is `None` or `0` (falsy)
the gate is bypassed and the basket attempt proceeds. -/
theorem auto_basket_gate_snapshot_only (p : Product) (data : ProductData)
    (bs : Bool) :
    (∀ q : Option ℚ,
      handle_auto_basket { p with current_price := q } data bs
        = handle_auto_basket p data bs)
    ∧ (pyTruthyQ p.auto_add_max_price = true → pyTruthyQ data.price = false →
        (handle_auto_basket p data bs).1 = true) := by
  constructor
  · intro q
    rfl
  · intro _ hfalse
    unfold handle_auto_basket
    rw [if_neg]
    · cases bs <;> rfl
    · rintro ⟨-, htruthy, -⟩
      rw [hfalse] at htruthy
      exact Bool.false_ne_true htruthy

/-- Witness for C10: with a configured max price of 50, a stored current
price of 999 and a priceless snapshot, the basket attempt still proceeds. -/
theorem auto_basket_gate_snapshot_only_witness :
    (handle_auto_basket
        { current_price := some 999, auto_add_max_price := some 50 }
        { item_number := "1" } false).1 = true :=
  (auto_basket_gate_snapshot_only
      { current_price := some 999, auto_add_max_price := some 50 }
      { item_number := "1" } false).2 (by decide) rfl

theorem price_phase_ordering (p : Product) (data : ProductData) (now : ℚ)
    (l c h : ℚ) (hl : p.lowest_price = some l) (hc : p.current_price = some c)
    (hh : p.highest_price = some h) (h1 : l ≤ c) (h2 : c ≤ h) :
    ∃ l' c' h', (price_phase p data now).product.lowest_price = some l'
      ∧ (price_phase p data now).product.current_price = some c'
      ∧ (price_phase p data now).product.highest_price = some h'
      ∧ l' ≤ c' ∧ c' ≤ h' := by
  unfold price_phase
  cases data.price with
  | none => exact ⟨l, c, h, hl, hc, hh, h1, h2⟩
  | some q =>
    dsimp only
    split
    · dsimp only
      split
      · next hlow =>
        split
        · exact ⟨q, q, q, rfl, rfl, rfl, le_refl q, le_refl q⟩
        · next hhigh =>
          refine ⟨q, q, h, rfl, rfl, hh, le_refl q, ?_⟩
          rw [not_or] at hhigh
          have := hhigh.2
          rw [hh] at this
          simp only [Option.getD_some, not_lt] at this
          exact this
      · next hlow =>
        rw [not_or] at hlow
        have hlq : l ≤ q := by
          have := hlow.2
          rw [hl] at this
          simp only [Option.getD_some, not_lt] at this
          exact this
        split
        · exact ⟨l, q, q, hl, rfl, rfl, hlq, le_refl q⟩
        · next hhigh =>
          refine ⟨l, q, h, hl, rfl, hh, hlq, ?_⟩
          rw [not_or] at hhigh
          have := hhigh.2
          rw [hh] at this
          simp only [Option.getD_some, not_lt] at this
          exact this
    · exact ⟨l, c, h, hl, hc, hh, h1, h2⟩

theorem price_phase_first_price (p : Product) (data : ProductData) (now : ℚ)
    (hl : p.lowest_price = none) (hc : p.current_price = none)
    (hh : p.highest_price = none) (q : ℚ) (hq : data.price = some q) :
    (price_phase p data now).product.lowest_price = some q
    ∧ (price_phase p data now).product.current_price = some q
    ∧ (price_phase p data now).product.highest_price = some q := by
  unfold price_phase
  rw [hq]
  dsimp only
  rw [if_pos (Or.inl hc)]
  dsimp only
  rw [if_pos (Or.inl hl)]
  dsimp only
  rw [if_pos (Or.inl hh)]
  exact ⟨rfl, rfl, rfl⟩

/-- Intermediate product fed to the price step when the snapshot is
error-free: last-checked stamped, error state cleared, name/image merged,
stock step applied, checkout-discount fields overwritten. -/
theorem process_ok_shape (p : Product) (data : ProductData) (now : ℚ)
    (bs : Bool) (herr : data.error = none) :
    ∃ pMid : Product,
      pMid.lowest_price = p.lowest_price
      ∧ pMid.current_price = p.current_price
      ∧ pMid.highest_price = p.highest_price
      ∧ (process_product_update p data now bs).product
          = (price_phase pMid data now).product := by
  refine ⟨{ (stock_phase (merge_basic_info { p with last_checked_at := some now, consecutive_errors := 0, last_error := none } data) data now bs).product with checkout_discount := data.checkout_discount, checkout_discount_text := data.checkout_discount_text }, ?_, ?_, ?_, ?_⟩
  · show (stock_phase (merge_basic_info _ data) data now bs).product.lowest_price
        = p.lowest_price
    rw [(stock_phase_keeps_prices _ data now bs).2.2.1, merge_keeps_lowest]
  · show (stock_phase (merge_basic_info _ data) data now bs).product.current_price
        = p.current_price
    rw [(stock_phase_keeps_prices _ data now bs).1, merge_keeps_current]
  · show (stock_phase (merge_basic_info _ data) data now bs).product.highest_price
        = p.highest_price
    rw [(stock_phase_keeps_prices _ data now bs).2.2.2, merge_keeps_highest]
  · unfold process_product_update
    rw [herr]

/-- Claim C9: when lowest, current and highest prices are all known and
ordered `lowest ≤ current ≤ highest`, processing any snapshot preserves that
ordering; and from a state with no recorded prices, an error-free snapshot
carrying a price establishes `lowest = current = highest` at that price. -/
theorem price_ordering_invariant (p : Product) (data : ProductData) (now : ℚ)
    (bs : Bool) :
    (∀ l c h : ℚ, p.lowest_price = some l → p.current_price = some c →
      p.highest_price = some h → l ≤ c → c ≤ h →
      ∃ l' c' h',
        (process_product_update p data now bs).product.lowest_price = some l'
        ∧ (process_product_update p data now bs).product.current_price = some c'
        ∧ (process_product_update p data now bs).product.highest_price = some h'
        ∧ l' ≤ c' ∧ c' ≤ h')
    ∧ (p.lowest_price = none → p.current_price = none → p.highest_price = none →
      data.error = none → ∀ q : ℚ, data.price = some q →
      (process_product_update p data now bs).product.lowest_price = some q
      ∧ (process_product_update p data now bs).product.current_price = some q
      ∧ (process_product_update p data now bs).product.highest_price = some q) := by
  constructor
  · intro l c h hl hc hh h1 h2
    cases herr : data.error with
    | some e =>
      unfold process_product_update
      rw [herr]
      exact ⟨l, c, h, hl, hc, hh, h1, h2⟩
    | none =>
      obtain ⟨pMid, e1, e2, e3, e4⟩ := process_ok_shape p data now bs herr
      rw [e4]
      exact price_phase_ordering pMid data now l c h (e1.trans hl) (e2.trans hc)
        (e3.trans hh) h1 h2
  · intro hl hc hh herr q hq
    obtain ⟨pMid, e1, e2, e3, e4⟩ := process_ok_shape p data now bs herr
    rw [e4]
    exact price_phase_first_price pMid data now (e1.trans hl) (e2.trans hc)
      (e3.trans hh) q hq

/-- Witness for C9: a product at lowest 10 ≤ current 12 ≤ highest 20 keeps an
ordered triple after a snapshot at price 15, and a fresh product seeds
lowest = current = highest = 7 from its first priced snapshot. -/
theorem price_ordering_invariant_witness :
    (∃ l' c' h',
      (process_product_update
        { lowest_price := some 10, current_price := some 12,
          highest_price := some 20 }
        { item_number := "1", price := some 15 } 0 false).product.lowest_price
          = some l'
      ∧ (process_product_update
        { lowest_price := some 10, current_price := some 12,
          highest_price := some 20 }
        { item_number := "1", price := some 15 } 0 false).product.current_price
          = some c'
      ∧ (process_product_update
        { lowest_price := some 10, current_price := some 12,
          highest_price := some 20 }
        { item_number := "1", price := some 15 } 0 false).product.highest_price
          = some h'
      ∧ l' ≤ c' ∧ c' ≤ h')
    ∧ ((process_product_update {} { item_number := "1", price := some 7 }
          0 false).product.lowest_price = some 7
      ∧ (process_product_update {} { item_number := "1", price := some 7 }
          0 false).product.current_price = some 7
      ∧ (process_product_update {} { item_number := "1", price := some 7 }
          0 false).product.highest_price = some 7) :=
  ⟨(price_ordering_invariant
      { lowest_price := some 10, current_price := some 12,
        highest_price := some 20 }
      { item_number := "1", price := some 15 } 0 false).1
      10 12 20 rfl rfl rfl (by norm_num) (by norm_num),
   (price_ordering_invariant {} { item_number := "1", price := some 7 }
      0 false).2 rfl rfl rfl rfl 7 rfl⟩

theorem handle_auto_basket_no_gate_success (p : Product) (data : ProductData)
    (hgate : ¬(pyTruthyQ p.auto_add_max_price = true ∧ pyTruthyQ data.price = true
        ∧ p.auto_add_max_price.getD 0 < data.price.getD 0)) :
    handle_auto_basket p data true
      = (true, [⟨AlertType.added_to_basket, AlertValue.nullV,
                 AlertValue.qtyV p.auto_add_quantity⟩]) := by
  unfold handle_auto_basket
  rw [if_neg hgate]
  rfl

theorem handle_auto_basket_no_success (p : Product) (data : ProductData) :
    (handle_auto_basket p data false).2 = [] := by
  unfold handle_auto_basket
  split
  · rfl
  · rfl

theorem stock_phase_oos_to_in (p : Product) (data : ProductData) (now : ℚ)
    (bs : Bool)
    (h1 : p.stock_status = StockStatus.out_of_stock)
    (h2 : data.stock_status = StockStatus.in_stock)
    (h4 : p.auto_add_to_basket = true)
    (h5 : p.notify_back_in_stock = true) :
    (stock_phase p data now bs).queuedAlerts
      = [⟨AlertType.back_in_stock, AlertValue.statusV StockStatus.out_of_stock,
          AlertValue.statusV StockStatus.in_stock⟩]
    ∧ (stock_phase p data now bs).basketAlerts
      = (handle_auto_basket { p with stock_status := data.stock_status, last_in_stock_at := some now } data bs).2 := by
  unfold stock_phase
  rw [if_neg (by rw [h1, h2]; exact fun hcontra => StockStatus.noConfusion hcontra)]
  rw [if_pos ⟨h1, h2⟩]
  dsimp only
  rw [if_pos h5, if_pos h4]
  exact ⟨by rw [h1, h2], rfl⟩

theorem stock_phase_queued_are_back_in_stock (p : Product) (data : ProductData)
    (now : ℚ) (bs : Bool) :
    ∀ a ∈ (stock_phase p data now bs).queuedAlerts,
      a.kind = AlertType.back_in_stock := by
  intro a ha
  unfold stock_phase at ha
  revert ha
  repeat' first | split | dsimp only
  all_goals intro ha
  all_goals
    first
      | exact absurd ha (List.not_mem_nil a)
      | (rw [List.mem_singleton] at ha; subst ha; rfl)

theorem stock_phase_basket_empty_on_failed (p : Product) (data : ProductData)
    (now : ℚ) :
    (stock_phase p data now false).basketAlerts = [] := by
  unfold stock_phase
  repeat' first | split | dsimp only
  all_goals first | rfl | exact handle_auto_basket_no_success _ data

theorem price_phase_alert_kinds (p : Product) (data : ProductData) (now : ℚ) :
    ∀ a ∈ (price_phase p data now).alerts,
      a.kind = AlertType.lowest_ever ∨ a.kind = AlertType.price_drop
        ∨ a.kind = AlertType.target_price := by
  intro a ha
  unfold price_phase at ha
  revert ha
  cases data.price with
  | none =>
    intro ha
    exact absurd ha (List.not_mem_nil a)
  | some q =>
    dsimp only
    repeat' first | split | dsimp only
    all_goals intro ha
    all_goals
      simp only [List.mem_append, List.mem_singleton, List.not_mem_nil,
        or_false, false_or, or_assoc] at ha
    all_goals
      first
        | exact absurd ha id
        | (rcases ha with rfl | rfl | rfl <;> simp)

theorem no_basket_alert_on_failed_attempt (p : Product) (data : ProductData)
    (now : ℚ) :
    ∀ a ∈ (process_product_update p data now false).emitted,
      a.kind ≠ AlertType.added_to_basket := by
  intro a ha hk
  unfold process_product_update at ha
  cases he : data.error with
  | some e =>
    simp only [he] at ha
    exact absurd ha (List.not_mem_nil a)
  | none =>
    simp only [he] at ha
    try dsimp only at ha
    rcases List.mem_append.mp ha with hb | hqp
    · rw [stock_phase_basket_empty_on_failed] at hb
      exact absurd hb (List.not_mem_nil a)
    · rcases List.mem_append.mp hqp with hq | hp
      · have hkind := stock_phase_queued_are_back_in_stock _ data now false a hq
        rw [hk] at hkind
        exact AlertType.noConfusion hkind
      · have hkind := price_phase_alert_kinds _ data now a hp
        rw [hk] at hkind
        rcases hkind with hkind | hkind | hkind <;> exact AlertType.noConfusion hkind

/-- Counterexample to C6: on an out-of-stock to in-stock transition with
auto-add enabled and a successful basket attempt, the ADDED_TO_BASKET alert
is emitted and recorded first, before the BACK_IN_STOCK alert — the basket
helper sends immediately while BACK_IN_STOCK sits in the queue that is only
flushed after the whole update. -/
theorem auto_basket_order_counterexample :
    (process_product_update productC6 dataC6 0 true).emitted
      = [⟨AlertType.added_to_basket, AlertValue.nullV, AlertValue.qtyV 1⟩,
         ⟨AlertType.back_in_stock, AlertValue.statusV StockStatus.out_of_stock,
          AlertValue.statusV StockStatus.in_stock⟩] := by
  decide

/-- Claim C6 (amended): on an out-of-stock to in-stock transition with
auto-add-to-basket enabled, back-in-stock notifications on and the max-price
gate passing, a successful basket attempt emits the ADDED_TO_BASKET alert
immediately — so it is emitted and recorded BEFORE the queued BACK_IN_STOCK
alert, not after it — and a failed basket attempt emits no alert at all. -/
theorem auto_basket_alert_ordering (p : Product) (data : ProductData) (now : ℚ)
    (h1 : p.stock_status = StockStatus.out_of_stock)
    (h2 : data.stock_status = StockStatus.in_stock)
    (h3 : data.error = none)
    (h4 : p.auto_add_to_basket = true)
    (h5 : p.notify_back_in_stock = true)
    (hgate : ¬(pyTruthyQ p.auto_add_max_price = true ∧ pyTruthyQ data.price = true
        ∧ p.auto_add_max_price.getD 0 < data.price.getD 0)) :
    (∃ rest, (process_product_update p data now true).emitted
        = ⟨AlertType.added_to_basket, AlertValue.nullV,
            AlertValue.qtyV p.auto_add_quantity⟩
          :: ⟨AlertType.back_in_stock, AlertValue.statusV StockStatus.out_of_stock,
              AlertValue.statusV StockStatus.in_stock⟩ :: rest)
    ∧ (∀ a ∈ (process_product_update p data now false).emitted,
        a.kind ≠ AlertType.added_to_basket) := by
  constructor
  · unfold process_product_update
    simp only [h3]
    try dsimp only
    set pM := merge_basic_info { p with last_checked_at := some now, consecutive_errors := 0, last_error := none } data with hpM
    have hM1 : pM.stock_status = StockStatus.out_of_stock := by
      rw [hpM, (merge_keeps_stock_policy _ data).1]
      exact h1
    have hM5 : pM.notify_back_in_stock = true := by
      rw [hpM, (merge_keeps_stock_policy _ data).2.1]
      exact h5
    have hM4 : pM.auto_add_to_basket = true := by
      rw [hpM, (merge_keeps_stock_policy _ data).2.2.1]
      exact h4
    obtain ⟨hque, hbask⟩ := stock_phase_oos_to_in pM data now true hM1 h2 hM4 hM5
    rw [hque, hbask]
    have hmax : ({ pM with stock_status := data.stock_status, last_in_stock_at := some now } : Product).auto_add_max_price = p.auto_add_max_price := by
      show pM.auto_add_max_price = p.auto_add_max_price
      rw [hpM, (merge_keeps_stock_policy _ data).2.2.2.2]
    have hqty : ({ pM with stock_status := data.stock_status, last_in_stock_at := some now } : Product).auto_add_quantity = p.auto_add_quantity := by
      show pM.auto_add_quantity = p.auto_add_quantity
      rw [hpM, (merge_keeps_stock_policy _ data).2.2.2.1]
    have hgate2 : ¬(pyTruthyQ ({ pM with stock_status := data.stock_status, last_in_stock_at := some now } : Product).auto_add_max_price = true
        ∧ pyTruthyQ data.price = true
        ∧ ({ pM with stock_status := data.stock_status, last_in_stock_at := some now } : Product).auto_add_max_price.getD 0 < data.price.getD 0) := by
      rw [hmax]
      exact hgate
    rw [handle_auto_basket_no_gate_success _ data hgate2]
    rw [hqty]
    exact ⟨_, rfl⟩
  · exact no_basket_alert_on_failed_attempt p data now

/-- Witness for C6 (amended): the concrete transition scenario, with a
successful attempt, emits ADDED_TO_BASKET at position 0 and BACK_IN_STOCK at
position 1; with a failed attempt no ADDED_TO_BASKET alert appears. -/
theorem auto_basket_alert_ordering_witness :
    (∃ rest, (process_product_update productC6 dataC6 0 true).emitted
        = ⟨AlertType.added_to_basket, AlertValue.nullV, AlertValue.qtyV productC6.auto_add_quantity⟩
          :: ⟨AlertType.back_in_stock, AlertValue.statusV StockStatus.out_of_stock,
              AlertValue.statusV StockStatus.in_stock⟩ :: rest)
    ∧ (∀ a ∈ (process_product_update productC6 dataC6 0 false).emitted,
        a.kind ≠ AlertType.added_to_basket) :=
  auto_basket_alert_ordering productC6 dataC6 0 rfl rfl rfl rfl rfl
    (fun hcontra => Bool.false_ne_true hcontra.1)

/-- Claim C4: from stored price 100 (lowest 100, highest 120), target 90 and
all price notifications on, an error-free snapshot at price 85 emits exactly
LOWEST_EVER(100→85), then PRICE_DROP(100→85), then TARGET_PRICE(None→85), in
that order, and the state ends with previous 100, current 85, lowest 85. -/
theorem scenario_price_drop_alerts :
    (process_product_update productC4 dataC4 0 false).emitted
      = [⟨AlertType.lowest_ever, AlertValue.priceV 100, AlertValue.priceV 85⟩,
         ⟨AlertType.price_drop, AlertValue.priceV 100, AlertValue.priceV 85⟩,
         ⟨AlertType.target_price, AlertValue.nullV, AlertValue.priceV 85⟩]
    ∧ (process_product_update productC4 dataC4 0 false).product.lowest_price
      = some 85
    ∧ (process_product_update productC4 dataC4 0 false).product.previous_price
      = some 100
    ∧ (process_product_update productC4 dataC4 0 false).product.current_price
      = some 85 := by
  norm_num [process_product_update, merge_basic_info, stock_phase, price_phase,
    handle_auto_basket, pyTruthyQ, pyTruthyStr, productC4, dataC4,
    Option.some_ne_none]

end CostcoTracker
